import Mathlib

/-!
Shallow embedding of the escalation/event-routing core of the Hive TUI
(`src/core/framework/tui/app.py`, class `AdenTUI`).

The Python methods are modelled as pure functions from an explicit session
state to a pair of (new state, list of observable effects).  Effects record
the externally visible calls the method makes (subscribe/unsubscribe on the
runtime, widget mount/unmount, runner cleanup, notifications, `inject_input`,
`trigger`).  Loading an agent is an external collaborator, so the load result
is a parameter (`none` models the load raising an exception).
-/

set_option autoImplicit false

namespace Hive

/-- The closed set of event types the TUI subscribes to
(`AdenTUI._EVENT_TYPES` in `app.py`). -/
inductive EventType
  | LLM_TEXT_DELTA
  | CLIENT_OUTPUT_DELTA
  | TOOL_CALL_STARTED
  | TOOL_CALL_COMPLETED
  | EXECUTION_STARTED
  | EXECUTION_COMPLETED
  | EXECUTION_FAILED
  | NODE_LOOP_STARTED
  | NODE_LOOP_ITERATION
  | NODE_LOOP_COMPLETED
  | CLIENT_INPUT_REQUESTED
  | NODE_STALLED
  | GOAL_PROGRESS
  | GOAL_ACHIEVED
  | CONSTRAINT_VIOLATION
  | STATE_CHANGED
  | NODE_INPUT_BLOCKED
  | CONTEXT_COMPACTED
  | NODE_INTERNAL_OUTPUT
  | JUDGE_VERDICT
  | OUTPUT_KEY_SET
  | NODE_RETRY
  | EDGE_TRAVERSED
  | EXECUTION_PAUSED
  | EXECUTION_RESUMED
  | ESCALATION_REQUESTED
  deriving DecidableEq, Repr

/-- A live agent execution context (`AgentRuntime` as seen through the TUI:
`graph_id`, `active_graph_id`, `is_running`). -/
structure RuntimeHandle where
  graph_id : String
  active_graph_id : String
  is_running : Bool
  deriving DecidableEq, Repr

/-- The `AgentRunner` owning a runtime (identified by its `agent_path`). -/
structure AgentRunner where
  agent_path : String
  deriving DecidableEq, Repr

/-- One saved frame of `AdenTUI._escalation_stack`: the dict
`{"runner": ..., "runtime": ..., "blocked_node_id": ...}` built in
`_do_escalate_to_coder`. -/
structure EscalationFrame where
  runner : Option AgentRunner
  runtime : RuntimeHandle
  blocked_node_id : String
  deriving DecidableEq, Repr

/-- The escalation-relevant mutable state of the `AdenTUI` instance:
`self.runtime`, `self._runner`, `self._escalation_stack`,
`self._subscription_id` (absent attribute modelled as `none`), whether the
agent widgets (`chat_repl` / `graph_view`) are mounted, and `self.is_ready`.
`next_token` is a counter feeding fresh subscription tokens. -/
structure TuiState where
  runtime : Option RuntimeHandle
  runner : Option AgentRunner
  escalation_stack : List EscalationFrame
  subscription_id : Option Nat
  widgets_mounted : Bool
  is_ready : Bool
  next_token : Nat
  deriving DecidableEq, Repr

/-- Observable effects of the TUI session operations. -/
inductive Effect
  | unsubscribe (token : Nat)
  | subscribe (token : Nat)
  | removeWidgets
  | mountWidgets
  | cleanupRunner
  | showCredentialSetup
  | notify (severity : String) (message : String)
  | injectInput (node_id : String) (message : String)
  | trigger (input_data : String)
  deriving DecidableEq, Repr

/-- The unsubscribe step that opens `_unmount_agent_widgets` (and is inlined
at step 1 of `_do_escalate_to_coder`): if `self._subscription_id` exists,
call `self.runtime.unsubscribe_from_events` (exceptions swallowed) and
delete the attribute. -/
def unsubscribeStep (s : TuiState) : TuiState × List Effect :=
  match s.subscription_id with
  | some tok => ({ s with subscription_id := none }, [Effect.unsubscribe tok])
  | none => (s, [])

/-- `AdenTUI._unmount_agent_widgets`: unsubscribe from events, remove the
workspace children, clear `graph_view` / `chat_repl`. -/
def unmount_agent_widgets (s : TuiState) : TuiState × List Effect :=
  let (s1, t1) := unsubscribeStep s
  ({ s1 with widgets_mounted := false }, t1 ++ [Effect.removeWidgets])

/-- `AdenTUI._mount_agent_widgets`: create and mount fresh
`GraphOverview` / `ChatRepl` widgets for `self.runtime`. -/
def mount_agent_widgets (s : TuiState) : TuiState × List Effect :=
  ({ s with widgets_mounted := true }, [Effect.mountWidgets])

/-- `AdenTUI._init_runtime_connection`: subscribe `self._handle_event` to the
runtime's events and store the returned subscription id. -/
def init_runtime_connection (s : TuiState) : TuiState × List Effect :=
  ({ s with subscription_id := some s.next_token, next_token := s.next_token + 1 },
   [Effect.subscribe s.next_token])

/-- Python's `"\n\n".join(parts)`. -/
def joinParts : List String → String
  | [] => ""
  | [p] => p
  | p :: q :: rest => p ++ "\n\n" ++ joinParts (q :: rest)

/-- The preamble part of the synthetic escalation instruction, for a given
worker agent path. -/
def preamblePart (worker_path : String) : String :=
  "Modify the agent at: " ++ worker_path ++
    "\nDo NOT ask which agent to modify - it is the path above."

/-- The generic fallback instruction used when all three inputs are empty. -/
def fallbackInstruction : String :=
  "The user needs help modifying their agent."

/-- The `parts` list built inside `_build_escalation_input` before joining. -/
def escalationParts (reason context worker_path : String) : List String :=
  let parts : List String :=
    (if worker_path ≠ "" then [preamblePart worker_path] else [])
      ++ (if reason ≠ "" then ["Problem: " ++ reason] else [])
      ++ (if context ≠ "" then ["Context:\n" ++ context] else [])
  if parts = [] then [fallbackInstruction] else parts

/-- `AdenTUI._build_escalation_input`: compose the `user_request` string for
the coder from the escalation reason, free-text context and worker path. -/
def build_escalation_input (reason context worker_path : String) : String :=
  joinParts (escalationParts reason context worker_path)

/-- `AdenTUI._restore_from_escalation_stack`: emergency restore when coder
loading fails — pop the top frame, restore `self._runner` / `self.runtime`,
remount widgets and re-subscribe (via `call_later(_init_runtime_connection)`). -/
def restore_from_escalation_stack (s : TuiState) : TuiState × List Effect :=
  match s.escalation_stack.getLast? with
  | none => (s, [])
  | some saved =>
    let s := { s with
      escalation_stack := s.escalation_stack.dropLast,
      runner := saved.runner,
      runtime := some saved.runtime }
    let (s, mountTrace) := mount_agent_widgets s
    let (s, subTrace) := init_runtime_connection s
    (s, mountTrace ++ subTrace)

/-- The outcome of the coder-loading block inside `_do_escalate_to_coder`
(`AgentRunner.load` / `_setup` / `start`): success, a raised
`CredentialError`, or any other raised exception. -/
inductive LoadOutcome
  | ok (runner : AgentRunner) (runtime : RuntimeHandle)
  | credentialError
  | loadFailure

/-- `AdenTUI._do_escalate_to_coder`: push the current worker state onto the
escalation stack, tear down its subscription and widgets, then load the
coder.  On success install the coder runtime, remount, re-subscribe and
trigger it with the synthetic escalation instruction.  On a generic load
failure, notify and roll back immediately via
`_restore_from_escalation_stack`.  On a `CredentialError`, the source shows
the credential-setup screen with `on_cancel = _restore_from_escalation_stack`
and returns — the just-pushed frame stays on the stack and rollback is
deferred to the interactive cancel callback. -/
def do_escalate_to_coder (reason context node_id : String)
    (load : LoadOutcome) (s : TuiState) :
    TuiState × List Effect :=
  match s.runtime with
  | none => (s, [Effect.notify "error" "No active agent to escalate from"])
  | some rt =>
    let saved : EscalationFrame :=
      { runner := s.runner, runtime := rt, blocked_node_id := node_id }
    let s := { s with escalation_stack := s.escalation_stack ++ [saved] }
    let (s, unsubTrace) := unsubscribeStep s
    let worker_path := match s.runner with
      | some r => r.agent_path
      | none => ""
    let s := { s with widgets_mounted := false }
    let preTrace := unsubTrace ++ [Effect.removeWidgets,
      Effect.notify "information" "Escalating to Hive Coder..."]
    match load with
    | .credentialError =>
      (s, preTrace ++ [Effect.showCredentialSetup])
    | .loadFailure =>
      let (s, restoreTrace) := restore_from_escalation_stack s
      (s, preTrace ++ [Effect.notify "error" "Failed to load coder"] ++ restoreTrace)
    | .ok runner rt0 =>
      let coder : RuntimeHandle :=
        { rt0 with graph_id := "hive_coder", active_graph_id := "hive_coder" }
      let s := { s with runner := some runner, runtime := some coder }
      let (s, mountTrace) := mount_agent_widgets s
      let (s, subTrace) := init_runtime_connection s
      let escalation_input := build_escalation_input reason context worker_path
      (s, preTrace ++ mountTrace ++ subTrace
        ++ [Effect.trigger escalation_input,
            Effect.notify "information" "Hive Coder loaded. Ctrl+E or /back to return."])

/-- `AdenTUI._return_from_escalation`: pop the escalation stack and restore
the worker agent.  `injectFails` models `inject_input` raising (caught and
reported as a warning). -/
def return_from_escalation (summary : String) (injectFails : Bool)
    (s : TuiState) : TuiState × List Effect :=
  match s.escalation_stack.getLast? with
  | none => (s, [Effect.notify "warning" "No escalation to return from"])
  | some saved =>
    let (s, unmountTrace) := unmount_agent_widgets s
    let cleanupTrace := match s.runner with
      | some _ => [Effect.cleanupRunner]
      | none => []
    let s := { s with
      escalation_stack := s.escalation_stack.dropLast,
      runner := saved.runner,
      runtime := some saved.runtime }
    let (s, mountTrace) := mount_agent_widgets s
    let (s, subTrace) := init_runtime_connection s
    let return_msg := if summary = "" then "Coder session completed. Continuing." else summary
    let injectTrace :=
      if saved.blocked_node_id = "" then []
      else
        [Effect.injectInput saved.blocked_node_id return_msg]
          ++ (if injectFails then [Effect.notify "warning" "Could not resume worker"] else [])
    (s, unmountTrace ++ cleanupTrace ++ mountTrace ++ subTrace ++ injectTrace
      ++ [Effect.notify "information" "Returned to worker agent"])

/-- `AdenTUI._load_and_switch_agent` (together with `_finish_agent_load`):
tear down the current agent, load a new one (`load = none` models the load
raising), and on success install it, mount widgets and subscribe. -/
def load_and_switch_agent (load : Option (AgentRunner × RuntimeHandle))
    (s : TuiState) : TuiState × List Effect :=
  let (s, teardownTrace) :=
    match s.runtime with
    | some _ =>
      let (s1, t1) := unmount_agent_widgets s
      let cleanupTrace := match s1.runner with
        | some _ => [Effect.cleanupRunner]
        | none => []
      ({ s1 with runner := none, runtime := none }, t1 ++ cleanupTrace)
    | none => (s, [])
  match load with
  | none => (s, teardownTrace ++ [Effect.notify "error" "Failed to load agent"])
  | some (runner, rt) =>
    let s := { s with runner := some runner, runtime := some rt }
    let (s, mountTrace) := mount_agent_widgets s
    let (s, subTrace) := init_runtime_connection s
    (s, teardownTrace ++ mountTrace ++ subTrace
      ++ [Effect.notify "information" "Agent loaded"])

/-! ### Event routing (`AdenTUI._route_event`) -/

/-- A runtime event as routed by the TUI (`AgentEvent`): its type, optional
`node_id` and `graph_id`, and the two data fields that influence control
flow in `_route_event` (`data["error"]` for background failure notifications
and `data["content"]` for `NODE_INTERNAL_OUTPUT`). -/
structure AgentEvent where
  type : EventType
  node_id : Option String
  graph_id : Option String
  error_data : String
  content : String
  deriving DecidableEq, Repr

/-- The state `_route_event` reads: `self.is_ready`, whether `chat_repl`
and `graph_view` are mounted, and `self.runtime.active_graph_id`. -/
structure RouteState where
  is_ready : Bool
  chat_mounted : Bool
  graph_mounted : Bool
  active_graph_id : String
  deriving DecidableEq, Repr

/-- One sink-method invocation performed by `_route_event`: a method on the
chat transcript (`chat_repl`), the graph view (`graph_view`), the status bar
(`status_bar`), or scheduling the escalation worker. -/
inductive SinkCall
  | chat (method : String)
  | graph (method : String)
  | status (method : String)
  | startEscalation
  deriving DecidableEq, Repr

/-- The chat-REPL sink calls of `_route_event`, in program order: the main
`if`/`elif` chain, then the `NODE_INTERNAL_OUTPUT` block, the
paused/resumed block and the goal/constraint block. -/
def chatCalls (e : AgentEvent) : List SinkCall :=
  (match e.type with
    | .LLM_TEXT_DELTA => [SinkCall.chat "handle_text_delta"]
    | .CLIENT_OUTPUT_DELTA => [SinkCall.chat "handle_text_delta"]
    | .TOOL_CALL_STARTED => [SinkCall.chat "handle_tool_started"]
    | .TOOL_CALL_COMPLETED => [SinkCall.chat "handle_tool_completed"]
    | .EXECUTION_COMPLETED => [SinkCall.chat "handle_execution_completed"]
    | .EXECUTION_FAILED => [SinkCall.chat "handle_execution_failed"]
    | .CLIENT_INPUT_REQUESTED => [SinkCall.chat "handle_input_requested"]
    | .ESCALATION_REQUESTED =>
        [SinkCall.chat "handle_escalation_requested", SinkCall.startEscalation]
    | .NODE_LOOP_STARTED => [SinkCall.chat "handle_node_started"]
    | .NODE_LOOP_ITERATION => [SinkCall.chat "handle_loop_iteration"]
    | .NODE_LOOP_COMPLETED => [SinkCall.chat "handle_node_completed"]
    | _ => [])
  ++ (match e.type with
    | .NODE_INTERNAL_OUTPUT =>
        if e.content.trim ≠ "" then [SinkCall.chat "handle_internal_output"] else []
    | _ => [])
  ++ (match e.type with
    | .EXECUTION_PAUSED => [SinkCall.chat "handle_execution_paused"]
    | .EXECUTION_RESUMED => [SinkCall.chat "handle_execution_resumed"]
    | _ => [])
  ++ (match e.type with
    | .GOAL_ACHIEVED => [SinkCall.chat "handle_goal_achieved"]
    | .CONSTRAINT_VIOLATION => [SinkCall.chat "handle_constraint_violation"]
    | _ => [])

/-- The graph-view sink calls of `_route_event` (performed only when
`self.graph_view is not None`), in program order. -/
def graphCalls (e : AgentEvent) : List SinkCall :=
  (match e.type with
    | .EXECUTION_STARTED | .EXECUTION_COMPLETED | .EXECUTION_FAILED =>
        [SinkCall.graph "update_execution"]
    | _ => [])
  ++ (match e.type with
    | .NODE_LOOP_STARTED => [SinkCall.graph "handle_node_loop_started"]
    | .NODE_LOOP_ITERATION => [SinkCall.graph "handle_node_loop_iteration"]
    | .NODE_LOOP_COMPLETED => [SinkCall.graph "handle_node_loop_completed"]
    | .NODE_STALLED => [SinkCall.graph "handle_stalled"]
    | _ => [])
  ++ (match e.type with
    | .TOOL_CALL_STARTED | .TOOL_CALL_COMPLETED => [SinkCall.graph "handle_tool_call"]
    | _ => [])
  ++ (match e.type with
    | .EDGE_TRAVERSED => [SinkCall.graph "handle_edge_traversed"]
    | _ => [])

/-- The status-bar sink calls of `_route_event` (a single `if`/`elif` chain). -/
def statusCalls (e : AgentEvent) : List SinkCall :=
  match e.type with
  | .EXECUTION_STARTED => [SinkCall.status "set_running"]
  | .EXECUTION_COMPLETED => [SinkCall.status "set_completed"]
  | .EXECUTION_FAILED => [SinkCall.status "set_failed"]
  | .NODE_LOOP_STARTED => [SinkCall.status "set_active_node"]
  | .NODE_LOOP_ITERATION => [SinkCall.status "set_node_detail"]
  | .TOOL_CALL_STARTED => [SinkCall.status "set_node_detail"]
  | .TOOL_CALL_COMPLETED => [SinkCall.status "set_node_detail"]
  | .NODE_STALLED => [SinkCall.status "set_node_detail"]
  | .CONTEXT_COMPACTED => [SinkCall.status "set_node_detail"]
  | .JUDGE_VERDICT => [SinkCall.status "set_node_detail"]
  | .OUTPUT_KEY_SET => [SinkCall.status "set_node_detail"]
  | .NODE_RETRY => [SinkCall.status "set_node_detail"]
  | .EXECUTION_PAUSED => [SinkCall.status "set_node_detail"]
  | .EXECUTION_RESUMED => [SinkCall.status "set_node_detail"]
  | _ => []

/-- Membership in `AdenTUI._LOG_PANE_EVENTS`
(= all subscribed types except the two streaming-delta types). -/
def logPaneEvent (t : EventType) : Bool :=
  match t with
  | .LLM_TEXT_DELTA => false
  | .CLIENT_OUTPUT_DELTA => false
  | _ => true

/-- The full ordered sequence of sink calls `_route_event` attempts for a
foreground event: chat section, graph-view section (if mounted), status-bar
section, then the inline log pane (`chat_repl.write_log_event`). -/
def foregroundCalls (st : RouteState) (e : AgentEvent) : List SinkCall :=
  chatCalls e
    ++ (if st.graph_mounted then graphCalls e else [])
    ++ statusCalls e
    ++ (if logPaneEvent e.type then [SinkCall.chat "write_log_event"] else [])

/-- Execute sink calls in order.  All of them run inside the single
`try`/`except` of `_route_event`: the first call for which `fails` holds
raises, the exception is caught and logged, and the remaining calls are
skipped.  Returns the calls actually invoked and whether an error was
logged. -/
def runSinks (fails : SinkCall → Bool) : List SinkCall → List SinkCall × Bool
  | [] => ([], false)
  | c :: rest =>
    if fails c then ([c], true)
    else
      let (done, logged) := runSinks fails rest
      (c :: done, logged)

/-- Whether `_route_event` treats the event as a background event:
`event.graph_id is not None and event.graph_id != self.runtime.active_graph_id`. -/
def isBackground (st : RouteState) (e : AgentEvent) : Bool :=
  match e.graph_id with
  | some g => g != st.active_graph_id
  | none => false

/-- The notifications `_route_event` shows for a background event (one per
event for the three highlighted types, nothing otherwise). -/
def backgroundNotifications (e : AgentEvent) : List String :=
  match e.type with
  | .CLIENT_INPUT_REQUESTED => ["is waiting for input"]
  | .EXECUTION_FAILED => ["failed: " ++ e.error_data]
  | .EXECUTION_COMPLETED => ["completed"]
  | _ => []

/-- The observable outcome of one `_route_event` call. -/
structure RouteResult where
  invoked : List SinkCall
  notifications : List String
  logged : Bool
  deriving DecidableEq, Repr

/-- `AdenTUI._route_event`: early-return when the UI is not ready or no chat
widget is mounted; background filtering by `graph_id`; otherwise sequential
sink dispatch inside one `try`/`except`. -/
def route_event (st : RouteState) (fails : SinkCall → Bool) (e : AgentEvent) :
    RouteResult :=
  if st.is_ready = false ∨ st.chat_mounted = false then
    { invoked := [], notifications := [], logged := false }
  else if isBackground st e then
    { invoked := [], notifications := backgroundNotifications e, logged := false }
  else
    let (done, logged) := runSinks fails (foregroundCalls st e)
    { invoked := done, notifications := [], logged := logged }

/-! ### Helper definitions for the theorems -/

/-- Whether an effect is a runtime unsubscribe call. -/
def isUnsubscribe : Effect → Bool
  | .unsubscribe _ => true
  | _ => false

/-- Whether an effect is an `inject_input` call. -/
def isInjectInput : Effect → Bool
  | .injectInput _ _ => true
  | _ => false

/-- The escalation-core projection of the session state: active runtime,
active runner, escalation stack. -/
def coreOf (s : TuiState) :
    Option RuntimeHandle × Option AgentRunner × List EscalationFrame :=
  (s.runtime, s.runner, s.escalation_stack)

/-- A sample worker runtime handle used to evaluate theorems concretely. -/
def sampleHandle : RuntimeHandle :=
  { graph_id := "worker", active_graph_id := "worker", is_running := true }

/-- A sample worker runner. -/
def sampleRunner : AgentRunner := { agent_path := "/agents/worker" }

/-- A sample session state with one active worker agent and no escalation
in progress. -/
def sampleState : TuiState :=
  { runtime := some sampleHandle
    runner := some sampleRunner
    escalation_stack := []
    subscription_id := some 0
    widgets_mounted := true
    is_ready := true
    next_token := 1 }

/-! ### C7: return with empty escalation stack -/

/-- Claim C7: calling the return operation when the escalation stack is
empty surfaces the empty-stack condition as a user warning and changes no
state at all — the returned state equals the input state (active handle,
runner, escalation stack, subscription token and mounted widgets all
unchanged) and the only effect is the warning notification. -/
theorem return_without_escalation_noop (s : TuiState) (summary : String)
    (injectFails : Bool) (h : s.escalation_stack = []) :
    return_from_escalation summary injectFails s =
      (s, [Effect.notify "warning" "No escalation to return from"]) := by
  simp [return_from_escalation, h]

/-- Witness for C7: the theorem evaluated at the sample state. -/
theorem return_without_escalation_noop_witness :
    sampleState.escalation_stack = [] ∧
    return_from_escalation "done" false sampleState =
      (sampleState, [Effect.notify "warning" "No escalation to return from"]) :=
  ⟨rfl, return_without_escalation_noop sampleState "done" false rfl⟩

/-! ### C8: idempotent detach -/

/-- Claim C8: the Event Router's detach (the unsubscribe-and-clear-token
step of `_unmount_agent_widgets`) is idempotent: after one call the
subscription token is cleared; a second call in a row performs no
unsubscribe at all; and when a token was held, the first call performs
exactly the one unsubscribe for that token. -/
theorem idempotent_detach (s : TuiState) :
    (unmount_agent_widgets s).1.subscription_id = none ∧
    ((unmount_agent_widgets (unmount_agent_widgets s).1).2.filter
      isUnsubscribe) = [] ∧
    (∀ tok, s.subscription_id = some tok →
      (unmount_agent_widgets s).2 = [Effect.unsubscribe tok, Effect.removeWidgets]) := by
  cases h : s.subscription_id <;>
    simp [unmount_agent_widgets, unsubscribeStep, isUnsubscribe, h]

/-- Witness for C8: the theorem evaluated at the sample state, which holds
subscription token `0`. -/
theorem idempotent_detach_witness :
    ((unmount_agent_widgets sampleState).1.subscription_id = none ∧
      ((unmount_agent_widgets (unmount_agent_widgets sampleState).1).2.filter
        isUnsubscribe) = [] ∧
      (∀ tok, sampleState.subscription_id = some tok →
        (unmount_agent_widgets sampleState).2 =
          [Effect.unsubscribe tok, Effect.removeWidgets])) ∧
    sampleState.subscription_id = some 0 :=
  ⟨idempotent_detach sampleState, rfl⟩

/-! ### C10: dispatch is a no-op while the UI is unmounted -/

/-- Claim C10: if the app is not ready or no chat widget is mounted,
`_route_event` returns immediately: no sink is invoked, no notification is
shown, nothing is logged or queued — the event is silently lost. -/
theorem route_event_noop_when_unmounted (st : RouteState)
    (fails : SinkCall → Bool) (e : AgentEvent)
    (h : st.is_ready = false ∨ st.chat_mounted = false) :
    route_event st fails e =
      { invoked := [], notifications := [], logged := false } := by
  rcases h with h | h <;> simp [route_event, h]

/-- Witness for C10: a matching-graph event delivered while the chat widget
is unmounted is dropped. -/
theorem route_event_noop_when_unmounted_witness :
    ((⟨true, false, false, "A"⟩ : RouteState).is_ready = false ∨
      (⟨true, false, false, "A"⟩ : RouteState).chat_mounted = false) ∧
    route_event ⟨true, false, false, "A"⟩ (fun _ => false)
        ⟨EventType.EXECUTION_COMPLETED, none, some "A", "", ""⟩ =
      { invoked := [], notifications := [], logged := false } :=
  ⟨Or.inr rfl,
    route_event_noop_when_unmounted ⟨true, false, false, "A"⟩ (fun _ => false)
      ⟨EventType.EXECUTION_COMPLETED, none, some "A", "", ""⟩ (Or.inr rfl)⟩

/-! ### C4: background graph filtering -/

/-- Claim C4: an event whose `graph_id` is set and differs from the active
graph reaches no transcript/graph-view/status-bar sink; exactly the types
`CLIENT_INPUT_REQUESTED`, `EXECUTION_FAILED` and `EXECUTION_COMPLETED`
produce exactly one user notification each, and every other type is
dropped with no notification and no sink call. -/
theorem background_graph_filtering (st : RouteState) (fails : SinkCall → Bool)
    (e : AgentEvent) (g : String)
    (hready : st.is_ready = true) (hchat : st.chat_mounted = true)
    (hg : e.graph_id = some g) (hne : g ≠ st.active_graph_id) :
    (route_event st fails e).invoked = [] ∧
    (route_event st fails e).notifications.length =
      (if e.type = EventType.CLIENT_INPUT_REQUESTED ∨
          e.type = EventType.EXECUTION_FAILED ∨
          e.type = EventType.EXECUTION_COMPLETED then 1 else 0) := by
  have hbg : isBackground st e = true := by
    simp [isBackground, hg, hne]
  simp only [route_event, hready, hchat, hbg]
  cases he : e.type <;> simp [backgroundNotifications, he]

/-- Witness for C4: a background `EXECUTION_FAILED` event (graph "B" while
"A" is active) yields no sink call and exactly one notification. -/
theorem background_graph_filtering_witness :
    (⟨true, true, true, "A"⟩ : RouteState).is_ready = true ∧
    (⟨EventType.EXECUTION_FAILED, none, some "B", "boom", ""⟩ : AgentEvent).graph_id = some "B" ∧
    ("B" : String) ≠ "A" ∧
    ((route_event ⟨true, true, true, "A"⟩ (fun _ => false)
        ⟨EventType.EXECUTION_FAILED, none, some "B", "boom", ""⟩).invoked = [] ∧
      (route_event ⟨true, true, true, "A"⟩ (fun _ => false)
        ⟨EventType.EXECUTION_FAILED, none, some "B", "boom", ""⟩).notifications.length =
        (if (⟨EventType.EXECUTION_FAILED, none, some "B", "boom", ""⟩ : AgentEvent).type =
              EventType.CLIENT_INPUT_REQUESTED ∨
            (⟨EventType.EXECUTION_FAILED, none, some "B", "boom", ""⟩ : AgentEvent).type =
              EventType.EXECUTION_FAILED ∨
            (⟨EventType.EXECUTION_FAILED, none, some "B", "boom", ""⟩ : AgentEvent).type =
              EventType.EXECUTION_COMPLETED then 1 else 0)) :=
  ⟨rfl, rfl, by decide,
    background_graph_filtering ⟨true, true, true, "A"⟩ (fun _ => false)
      ⟨EventType.EXECUTION_FAILED, none, some "B", "boom", ""⟩ "B" rfl rfl rfl (by decide)⟩

/-! ### C2: rollback on load failure -/

/-- C2 counterexample: a `CredentialError` while loading the coder — after
the current frame has been pushed — does not roll back: the just-pushed
frame stays on the stack (depth goes from 0 to 1), the credential-setup
screen is shown instead of an immediate restore, and the trace performs no
remount of the worker widgets.  This refutes the claim that every load
failure pops the just-pushed frame and leaves the stack depth unchanged. -/
theorem rollback_on_load_failure_counterexample :
    (do_escalate_to_coder "tool X missing" "" "n1"
        LoadOutcome.credentialError sampleState).1.escalation_stack =
      [{ runner := some sampleRunner, runtime := sampleHandle,
          blocked_node_id := "n1" }] ∧
    (do_escalate_to_coder "tool X missing" "" "n1"
        LoadOutcome.credentialError sampleState).1.escalation_stack.length ≠
      sampleState.escalation_stack.length ∧
    Effect.showCredentialSetup ∈
      (do_escalate_to_coder "tool X missing" "" "n1"
        LoadOutcome.credentialError sampleState).2 ∧
    Effect.mountWidgets ∉
      (do_escalate_to_coder "tool X missing" "" "n1"
        LoadOutcome.credentialError sampleState).2 := by decide

/-- Claim C2 (amended): when the coder load fails with a generic
(non-credential) error after the current frame has been pushed,
`_do_escalate_to_coder` rolls back immediately: the just-pushed frame is
popped, the prior handle and runner restored, the escalation stack is
exactly what it was before, a user-visible error is surfaced, and the
session still has an active handle.  When the load fails with a
`CredentialError`, rollback is deferred: the just-pushed frame remains on
the stack and the credential-setup screen is shown (its cancel callback is
`_restore_from_escalation_stack`), while the worker handle and runner stay
active. -/
theorem load_failure_rollback_amended (s : TuiState) (rt : RuntimeHandle)
    (reason context node_id : String) (h : s.runtime = some rt) :
    ((do_escalate_to_coder reason context node_id LoadOutcome.loadFailure s).1.runtime =
        some rt ∧
      (do_escalate_to_coder reason context node_id LoadOutcome.loadFailure s).1.runner =
        s.runner ∧
      (do_escalate_to_coder reason context node_id LoadOutcome.loadFailure s).1.escalation_stack =
        s.escalation_stack ∧
      Effect.notify "error" "Failed to load coder" ∈
        (do_escalate_to_coder reason context node_id LoadOutcome.loadFailure s).2) ∧
    ((do_escalate_to_coder reason context node_id LoadOutcome.credentialError s).1.runtime =
        some rt ∧
      (do_escalate_to_coder reason context node_id LoadOutcome.credentialError s).1.runner =
        s.runner ∧
      (do_escalate_to_coder reason context node_id LoadOutcome.credentialError s).1.escalation_stack =
        s.escalation_stack ++
          [{ runner := s.runner, runtime := rt, blocked_node_id := node_id }] ∧
      Effect.showCredentialSetup ∈
        (do_escalate_to_coder reason context node_id LoadOutcome.credentialError s).2) := by
  cases hsub : s.subscription_id <;>
    simp [do_escalate_to_coder, h, hsub, unsubscribeStep,
      restore_from_escalation_stack, mount_agent_widgets, init_runtime_connection]

/-- Witness for the amended C2: both failure modes evaluated from the
sample state — the generic failure restores the worker and empty stack, the
credential failure leaves the pushed frame in place. -/
theorem load_failure_rollback_amended_witness :
    sampleState.runtime = some sampleHandle ∧
    (((do_escalate_to_coder "tool X missing" "" "n1"
          LoadOutcome.loadFailure sampleState).1.runtime = some sampleHandle ∧
      (do_escalate_to_coder "tool X missing" "" "n1"
          LoadOutcome.loadFailure sampleState).1.runner = sampleState.runner ∧
      (do_escalate_to_coder "tool X missing" "" "n1"
          LoadOutcome.loadFailure sampleState).1.escalation_stack =
        sampleState.escalation_stack ∧
      Effect.notify "error" "Failed to load coder" ∈
        (do_escalate_to_coder "tool X missing" "" "n1"
          LoadOutcome.loadFailure sampleState).2) ∧
    ((do_escalate_to_coder "tool X missing" "" "n1"
          LoadOutcome.credentialError sampleState).1.runtime = some sampleHandle ∧
      (do_escalate_to_coder "tool X missing" "" "n1"
          LoadOutcome.credentialError sampleState).1.runner = sampleState.runner ∧
      (do_escalate_to_coder "tool X missing" "" "n1"
          LoadOutcome.credentialError sampleState).1.escalation_stack =
        sampleState.escalation_stack ++
          [{ runner := sampleState.runner, runtime := sampleHandle,
              blocked_node_id := "n1" }] ∧
      Effect.showCredentialSetup ∈
        (do_escalate_to_coder "tool X missing" "" "n1"
          LoadOutcome.credentialError sampleState).2)) :=
  ⟨rfl, load_failure_rollback_amended sampleState sampleHandle
    "tool X missing" "" "n1" rfl⟩

/-! ### C3: sink failure isolation -/

/-- If some attempted sink call fails, `runSinks` invokes exactly the calls
up to and including the first failing one, and reports the logged error. -/
theorem runSinks_of_fail (fails : SinkCall → Bool) :
    ∀ l : List SinkCall, (∃ c ∈ l, fails c = true) →
      ∃ pre c post, l = pre ++ c :: post ∧ (∀ x ∈ pre, fails x = false) ∧
        fails c = true ∧ runSinks fails l = (pre ++ [c], true)
  | [], h => by simp at h
  | a :: rest, h => by
    by_cases ha : fails a = true
    · exact ⟨[], a, rest, rfl, by simp, ha, by simp [runSinks, ha]⟩
    · have hrest : ∃ c ∈ rest, fails c = true := by
        rcases h with ⟨c, hc, hfc⟩
        rcases List.mem_cons.mp hc with rfl | hmem
        · exact absurd hfc ha
        · exact ⟨c, hmem, hfc⟩
      obtain ⟨pre, c, post, heq, hpre, hfc, hrun⟩ := runSinks_of_fail fails rest hrest
      refine ⟨a :: pre, c, post, by simp [heq], ?_, hfc, ?_⟩
      · intro x hx
        rcases List.mem_cons.mp hx with rfl | hx
        · simpa using ha
        · exact hpre x hx
      · simp [runSinks, ha, hrun]

/-- C3 counterexample: with the chat transcript's `handle_tool_started`
raising on a foreground `TOOL_CALL_STARTED` event, the error is logged but
the graph-view and status-bar sinks — both interested in the event and
invoked later — never receive it.  This refutes the claim that a sink
failure does not prevent later-invoked sinks from receiving the event. -/
theorem sink_failure_isolation_counterexample :
    (route_event ⟨true, true, true, "A"⟩
        (fun c => c == SinkCall.chat "handle_tool_started")
        ⟨EventType.TOOL_CALL_STARTED, some "n1", none, "", ""⟩).logged = true ∧
    SinkCall.graph "handle_tool_call" ∈
      foregroundCalls ⟨true, true, true, "A"⟩
        ⟨EventType.TOOL_CALL_STARTED, some "n1", none, "", ""⟩ ∧
    SinkCall.status "set_node_detail" ∈
      foregroundCalls ⟨true, true, true, "A"⟩
        ⟨EventType.TOOL_CALL_STARTED, some "n1", none, "", ""⟩ ∧
    (route_event ⟨true, true, true, "A"⟩
        (fun c => c == SinkCall.chat "handle_tool_started")
        ⟨EventType.TOOL_CALL_STARTED, some "n1", none, "", ""⟩).invoked =
      [SinkCall.chat "handle_tool_started"] := by decide

/-- Claim C3 (amended): an error raised by a sink while handling a
foreground event is caught and logged (the session does not crash), but it
aborts dispatch of that event — exactly the calls before the first failing
sink plus the failing call itself are invoked, and no later sink receives
the event. -/
theorem sink_failure_stops_dispatch (st : RouteState) (fails : SinkCall → Bool)
    (e : AgentEvent) (hready : st.is_ready = true) (hchat : st.chat_mounted = true)
    (hbg : isBackground st e = false)
    (hfail : ∃ c ∈ foregroundCalls st e, fails c = true) :
    (route_event st fails e).logged = true ∧
    ∃ pre c post, foregroundCalls st e = pre ++ c :: post ∧
      (∀ x ∈ pre, fails x = false) ∧ fails c = true ∧
      (route_event st fails e).invoked = pre ++ [c] := by
  obtain ⟨pre, c, post, heq, hpre, hfc, hrun⟩ := runSinks_of_fail fails _ hfail
  have hroute : route_event st fails e =
      { invoked := pre ++ [c], notifications := [], logged := true } := by
    simp [route_event, hready, hchat, hbg, hrun]
  rw [hroute]
  exact ⟨rfl, pre, c, post, heq, hpre, hfc, rfl⟩

/-- Witness for the amended C3: the concrete failing dispatch of the
counterexample satisfies the amended theorem. -/
theorem sink_failure_stops_dispatch_witness :
    isBackground ⟨true, true, true, "A"⟩
        ⟨EventType.TOOL_CALL_STARTED, some "n1", none, "", ""⟩ = false ∧
    (∃ c ∈ foregroundCalls ⟨true, true, true, "A"⟩
        ⟨EventType.TOOL_CALL_STARTED, some "n1", none, "", ""⟩,
      (fun c => c == SinkCall.chat "handle_tool_started") c = true) ∧
    ((route_event ⟨true, true, true, "A"⟩
        (fun c => c == SinkCall.chat "handle_tool_started")
        ⟨EventType.TOOL_CALL_STARTED, some "n1", none, "", ""⟩).logged = true ∧
      ∃ pre c post,
        foregroundCalls ⟨true, true, true, "A"⟩
            ⟨EventType.TOOL_CALL_STARTED, some "n1", none, "", ""⟩ =
          pre ++ c :: post ∧
        (∀ x ∈ pre, (fun c => c == SinkCall.chat "handle_tool_started") x = false) ∧
        (fun c => c == SinkCall.chat "handle_tool_started") c = true ∧
        (route_event ⟨true, true, true, "A"⟩
            (fun c => c == SinkCall.chat "handle_tool_started")
            ⟨EventType.TOOL_CALL_STARTED, some "n1", none, "", ""⟩).invoked =
          pre ++ [c]) :=
  ⟨by decide, by decide,
    sink_failure_stops_dispatch ⟨true, true, true, "A"⟩
      (fun c => c == SinkCall.chat "handle_tool_started")
      ⟨EventType.TOOL_CALL_STARTED, some "n1", none, "", ""⟩
      rfl rfl (by decide) (by decide)⟩

/-! ### C5: synthetic escalation instruction composition -/

/-- String containment as contiguous-substring decomposition. -/
def containsSection (result sec : String) : Prop :=
  ∃ pre post, result = pre ++ sec ++ post

theorem preamble_ne_problem (w r : String) :
    preamblePart w ≠ "Problem: " ++ r := by
  intro h
  have := congrArg String.data h
  simp [preamblePart, String.data_append] at this

theorem preamble_ne_context (w c : String) :
    preamblePart w ≠ "Context:\n" ++ c := by
  intro h
  have := congrArg String.data h
  simp [preamblePart, String.data_append] at this

theorem preamble_ne_fallback (w : String) :
    preamblePart w ≠ fallbackInstruction := by
  intro h
  have := congrArg String.data h
  simp [preamblePart, fallbackInstruction, String.data_append] at this

theorem problem_ne_context (r c : String) :
    "Problem: " ++ r ≠ "Context:\n" ++ c := by
  intro h
  have := congrArg String.data h
  simp [String.data_append] at this

theorem problem_ne_fallback (r : String) :
    "Problem: " ++ r ≠ fallbackInstruction := by
  intro h
  have := congrArg String.data h
  simp [fallbackInstruction, String.data_append] at this

theorem context_ne_fallback (c : String) :
    "Context:\n" ++ c ≠ fallbackInstruction := by
  intro h
  have := congrArg String.data h
  simp [fallbackInstruction, String.data_append] at this

theorem problem_ne_preamble (w r : String) :
    "Problem: " ++ r ≠ preamblePart w :=
  fun h => preamble_ne_problem w r h.symm

theorem context_ne_preamble (w c : String) :
    "Context:\n" ++ c ≠ preamblePart w :=
  fun h => preamble_ne_context w c h.symm

theorem context_ne_problem (r c : String) :
    "Context:\n" ++ c ≠ "Problem: " ++ r :=
  fun h => problem_ne_context r c h.symm

theorem problemLit_ne_fallback : ("Problem: " : String) ≠ fallbackInstruction := by
  simpa using problem_ne_fallback ""

theorem problemLit_ne_context (c : String) :
    ("Problem: " : String) ≠ "Context:\n" ++ c := by
  simpa using problem_ne_context "" c

theorem problemLit_ne_preamble (w : String) :
    ("Problem: " : String) ≠ preamblePart w := by
  simpa using problem_ne_preamble w ""

theorem contextLit_ne_fallback : ("Context:\n" : String) ≠ fallbackInstruction := by
  simpa using context_ne_fallback ""

theorem contextLit_ne_problem (r : String) :
    ("Context:\n" : String) ≠ "Problem: " ++ r := by
  simpa using context_ne_problem r ""

theorem contextLit_ne_preamble (w : String) :
    ("Context:\n" : String) ≠ preamblePart w := by
  simpa using context_ne_preamble w ""

/-- Every part of the joined list is a contiguous section of the join. -/
theorem containsSection_joinParts : ∀ (parts : List String) (p : String),
    p ∈ parts → containsSection (joinParts parts) p
  | [], p, h => by simp at h
  | [q], p, h => by
    simp at h
    subst h
    exact ⟨"", "", by simp [joinParts]⟩
  | q :: q2 :: rest, p, h => by
    rcases List.mem_cons.mp h with rfl | h
    · exact ⟨"", "\n\n" ++ joinParts (q2 :: rest),
        by simp [joinParts, String.append_assoc]⟩
    · obtain ⟨pre, post, hp⟩ := containsSection_joinParts (q2 :: rest) p h
      exact ⟨q ++ "\n\n" ++ pre, post,
        by simp [joinParts, hp, String.append_assoc]⟩

/-- The preamble is among the composed parts iff the worker path is
non-empty. -/
theorem mem_escalationParts_preamble (reason context worker_path : String) :
    preamblePart worker_path ∈ escalationParts reason context worker_path ↔
      worker_path ≠ "" := by
  by_cases hw : worker_path = "" <;> by_cases hr : reason = "" <;>
    by_cases hc : context = "" <;>
      simp [escalationParts, hw, hr, hc, preamble_ne_problem,
        preamble_ne_context, preamble_ne_fallback]

/-- The reason section is among the composed parts iff the reason is
non-empty. -/
theorem mem_escalationParts_reason (reason context worker_path : String) :
    ("Problem: " ++ reason) ∈ escalationParts reason context worker_path ↔
      reason ≠ "" := by
  by_cases hw : worker_path = "" <;> by_cases hr : reason = "" <;>
    by_cases hc : context = "" <;>
      simp [escalationParts, hw, hr, hc, problem_ne_preamble,
        problem_ne_context, problem_ne_fallback, problemLit_ne_preamble,
        problemLit_ne_context, problemLit_ne_fallback]

/-- The context section is among the composed parts iff the context is
non-empty. -/
theorem mem_escalationParts_context (reason context worker_path : String) :
    ("Context:\n" ++ context) ∈ escalationParts reason context worker_path ↔
      context ≠ "" := by
  by_cases hw : worker_path = "" <;> by_cases hr : reason = "" <;>
    by_cases hc : context = "" <;>
      simp [escalationParts, hw, hr, hc, context_ne_preamble,
        context_ne_problem, context_ne_fallback, contextLit_ne_preamble,
        contextLit_ne_problem, contextLit_ne_fallback]

/-- Claim C5: the synthetic escalation instruction contains the worker-path
preamble section iff `worker_path` is non-empty, the reason section iff
`reason` is non-empty, and the context section iff `context` is non-empty
(each present section is a contiguous substring of the composed
instruction); when all three inputs are empty the result is exactly the
generic fallback instruction. -/
theorem escalation_input_composition (reason context worker_path : String) :
    (preamblePart worker_path ∈ escalationParts reason context worker_path ↔
      worker_path ≠ "") ∧
    (("Problem: " ++ reason) ∈ escalationParts reason context worker_path ↔
      reason ≠ "") ∧
    (("Context:\n" ++ context) ∈ escalationParts reason context worker_path ↔
      context ≠ "") ∧
    (worker_path ≠ "" →
      containsSection (build_escalation_input reason context worker_path)
        (preamblePart worker_path)) ∧
    (reason ≠ "" →
      containsSection (build_escalation_input reason context worker_path)
        ("Problem: " ++ reason)) ∧
    (context ≠ "" →
      containsSection (build_escalation_input reason context worker_path)
        ("Context:\n" ++ context)) ∧
    (worker_path = "" → reason = "" → context = "" →
      build_escalation_input reason context worker_path = fallbackInstruction) := by
  refine ⟨mem_escalationParts_preamble reason context worker_path,
    mem_escalationParts_reason reason context worker_path,
    mem_escalationParts_context reason context worker_path, ?_, ?_, ?_, ?_⟩
  · intro hw
    exact containsSection_joinParts _ _
      ((mem_escalationParts_preamble reason context worker_path).mpr hw)
  · intro hr
    exact containsSection_joinParts _ _
      ((mem_escalationParts_reason reason context worker_path).mpr hr)
  · intro hc
    exact containsSection_joinParts _ _
      ((mem_escalationParts_context reason context worker_path).mpr hc)
  · intro hw hr hc
    simp [build_escalation_input, escalationParts, joinParts, hw, hr, hc]

/-- Witness for C5: for `reason = "tool X missing"`, `context = ""` and the
sample worker path, the instruction contains the reason section and omits
the context section. -/
theorem escalation_input_composition_witness :
    ((preamblePart "/agents/worker" ∈
        escalationParts "tool X missing" "" "/agents/worker" ↔
      ("/agents/worker" : String) ≠ "") ∧
    (("Problem: " ++ "tool X missing") ∈
        escalationParts "tool X missing" "" "/agents/worker" ↔
      ("tool X missing" : String) ≠ "") ∧
    (("Context:\n" ++ "") ∈ escalationParts "tool X missing" "" "/agents/worker" ↔
      ("" : String) ≠ "") ∧
    (("/agents/worker" : String) ≠ "" →
      containsSection (build_escalation_input "tool X missing" "" "/agents/worker")
        (preamblePart "/agents/worker")) ∧
    (("tool X missing" : String) ≠ "" →
      containsSection (build_escalation_input "tool X missing" "" "/agents/worker")
        ("Problem: " ++ "tool X missing")) ∧
    (("" : String) ≠ "" →
      containsSection (build_escalation_input "tool X missing" "" "/agents/worker")
        ("Context:\n" ++ "")) ∧
    (("/agents/worker" : String) = "" → ("tool X missing" : String) = "" →
      ("" : String) = "" →
      build_escalation_input "tool X missing" "" "/agents/worker" =
        fallbackInstruction)) ∧
    ("Problem: " ++ "tool X missing") ∈
      escalationParts "tool X missing" "" "/agents/worker" ∧
    ("Context:\n" ++ "") ∉ escalationParts "tool X missing" "" "/agents/worker" :=
  ⟨escalation_input_composition "tool X missing" "" "/agents/worker",
    by decide, by decide⟩

/-! ### C6: resume injection on return -/

/-- Claim C6: on a return whose popped frame has a non-empty
`blocked_node_id`, exactly one `inject_input(blocked_node_id, m)` call is
made, where `m` is the supplied summary if non-empty and the default return
message otherwise; with an empty `blocked_node_id` no `inject_input` call is
made; and when `inject_input` fails, the user is warned but the restore of
the worker handle and runner still completes. -/
theorem resume_injection_on_return (s : TuiState) (f : EscalationFrame)
    (summary : String) (injectFails : Bool)
    (h : s.escalation_stack.getLast? = some f) :
    ((return_from_escalation summary injectFails s).2.filter isInjectInput =
      if f.blocked_node_id = "" then []
      else [Effect.injectInput f.blocked_node_id
        (if summary = "" then "Coder session completed. Continuing." else summary)]) ∧
    (injectFails = true → f.blocked_node_id ≠ "" →
      Effect.notify "warning" "Could not resume worker" ∈
        (return_from_escalation summary injectFails s).2) ∧
    (return_from_escalation summary injectFails s).1.runtime = some f.runtime ∧
    (return_from_escalation summary injectFails s).1.runner = f.runner := by
  cases hsub : s.subscription_id <;> cases hrun : s.runner <;>
    by_cases hb : f.blocked_node_id = "" <;> cases injectFails <;>
      simp [return_from_escalation, h, hsub, hrun, hb, unmount_agent_widgets,
        unsubscribeStep, mount_agent_widgets, init_runtime_connection, isInjectInput]

/-- A sample frame for a worker blocked on node `n1`. -/
def sampleFrame : EscalationFrame :=
  { runner := some sampleRunner, runtime := sampleHandle, blocked_node_id := "n1" }

/-- A sample session state in the escalated configuration (coder active,
one frame on the stack). -/
def escalatedState : TuiState :=
  { runtime := some ⟨"hive_coder", "hive_coder", true⟩
    runner := some ⟨"/agents/hive_coder"⟩
    escalation_stack := [sampleFrame]
    subscription_id := some 1
    widgets_mounted := true
    is_ready := true
    next_token := 2 }

/-- Witness for C6: returning with `summary = "done"` from the escalated
sample state makes exactly the call `inject_input("n1", "done")`. -/
theorem resume_injection_on_return_witness :
    escalatedState.escalation_stack.getLast? = some sampleFrame ∧
    (((return_from_escalation "done" false escalatedState).2.filter isInjectInput =
      if sampleFrame.blocked_node_id = "" then []
      else [Effect.injectInput sampleFrame.blocked_node_id
        (if "done" = "" then "Coder session completed. Continuing." else "done")]) ∧
    (false = true → sampleFrame.blocked_node_id ≠ "" →
      Effect.notify "warning" "Could not resume worker" ∈
        (return_from_escalation "done" false escalatedState).2) ∧
    (return_from_escalation "done" false escalatedState).1.runtime =
      some sampleFrame.runtime ∧
    (return_from_escalation "done" false escalatedState).1.runner =
      sampleFrame.runner) :=
  ⟨rfl, resume_injection_on_return escalatedState sampleFrame "done" false rfl⟩

/-! ### C1: stack discipline -/

/-- `N` successive successful escalations (one per load result), as in
repeated `_do_escalate_to_coder` calls with empty reason/context/node. -/
def runEscalations (loads : List (AgentRunner × RuntimeHandle)) (s : TuiState) :
    TuiState :=
  loads.foldl
    (fun st l => (do_escalate_to_coder "" "" "" (LoadOutcome.ok l.1 l.2) st).1) s

/-- `n` successive `_return_from_escalation` calls. -/
def runReturns : Nat → TuiState → TuiState
  | 0, s => s
  | n + 1, s => runReturns n (return_from_escalation "" false s).1

/-- The escalation core after one successful escalate: the coder is active,
the loaded runner installed, and the previous handle/runner/blocked-node
pushed as the new top frame. -/
theorem escalate_ok_core (s : TuiState) (rt : RuntimeHandle)
    (l : AgentRunner × RuntimeHandle) (reason context node_id : String)
    (h : s.runtime = some rt) :
    coreOf (do_escalate_to_coder reason context node_id (LoadOutcome.ok l.1 l.2) s).1 =
      (some { l.2 with graph_id := "hive_coder", active_graph_id := "hive_coder" },
        some l.1,
        s.escalation_stack ++
          [{ runner := s.runner, runtime := rt, blocked_node_id := node_id }]) := by
  obtain ⟨lr, lh⟩ := l
  cases hsub : s.subscription_id <;>
    simp [do_escalate_to_coder, h, hsub, unsubscribeStep, mount_agent_widgets,
      init_runtime_connection, coreOf]

/-- The escalation core after one return: the top frame (if any) is popped
and its handle and runner restored. -/
theorem return_core (summary : String) (injectFails : Bool) (s : TuiState) :
    coreOf (return_from_escalation summary injectFails s).1 =
      match s.escalation_stack.getLast? with
      | none => coreOf s
      | some f => (some f.runtime, f.runner, s.escalation_stack.dropLast) := by
  cases h : s.escalation_stack.getLast? <;>
    cases hsub : s.subscription_id <;> cases hrun : s.runner <;>
      simp [return_from_escalation, h, hsub, hrun, unmount_agent_widgets,
        unsubscribeStep, mount_agent_widgets, init_runtime_connection, coreOf]

/-- The escalation core after a return depends only on the escalation core
before it. -/
theorem return_core_congr (summary : String) (injectFails : Bool)
    (s1 s2 : TuiState) (h : coreOf s1 = coreOf s2) :
    coreOf (return_from_escalation summary injectFails s1).1 =
      coreOf (return_from_escalation summary injectFails s2).1 := by
  have hstack : s1.escalation_stack = s2.escalation_stack :=
    congrArg (fun t => t.2.2) h
  rw [return_core, return_core, hstack]
  cases s2.escalation_stack.getLast? <;> simp [h]

/-- Iterating returns one more time equals one return after the iterate. -/
theorem runReturns_succ_outer : ∀ (n : Nat) (s : TuiState),
    runReturns (n + 1) s =
      (return_from_escalation "" false (runReturns n s)).1
  | 0, _ => rfl
  | n + 1, s => by
    have h0 : runReturns (n + 1 + 1) s =
        runReturns (n + 1) (return_from_escalation "" false s).1 := rfl
    rw [h0, runReturns_succ_outer n]
    rfl

/-- `N` escalations followed by `N` returns restore the escalation core
(active handle, runner, stack) exactly. -/
theorem roundtrip_core : ∀ (loads : List (AgentRunner × RuntimeHandle))
    (s : TuiState) (rt : RuntimeHandle), s.runtime = some rt →
    coreOf (runReturns loads.length (runEscalations loads s)) = coreOf s
  | [], _, _, _ => rfl
  | l :: ls, s, rt, h => by
    have hesc : runEscalations (l :: ls) s =
        runEscalations ls
          (do_escalate_to_coder "" "" "" (LoadOutcome.ok l.1 l.2) s).1 := rfl
    have hcore := escalate_ok_core s rt l "" "" "" h
    have h1 : (do_escalate_to_coder "" "" "" (LoadOutcome.ok l.1 l.2) s).1.runtime =
        some { l.2 with graph_id := "hive_coder", active_graph_id := "hive_coder" } :=
      congrArg (fun t => t.1) hcore
    have IH := roundtrip_core ls
      (do_escalate_to_coder "" "" "" (LoadOutcome.ok l.1 l.2) s).1 _ h1
    rw [hesc, show (l :: ls).length = ls.length + 1 from rfl, runReturns_succ_outer]
    rw [return_core_congr "" false _ _ IH]
    rw [return_core]
    have hstack : (do_escalate_to_coder "" "" ""
        (LoadOutcome.ok l.1 l.2) s).1.escalation_stack =
        s.escalation_stack ++
          [{ runner := s.runner, runtime := rt, blocked_node_id := "" }] :=
      congrArg (fun t => t.2.2) hcore
    rw [hstack]
    simp [coreOf, h]

/-- Claim C1: for any sequence of `N` successful escalate operations
followed by `N` return operations with no interleaving, frames are popped
in exact reverse order of pushing: the active handle after all returns
equals the original handle, the runner equals the original runner, and the
escalation stack is empty again. -/
theorem stack_discipline (s : TuiState) (rt : RuntimeHandle)
    (loads : List (AgentRunner × RuntimeHandle))
    (h : s.runtime = some rt) (hstack : s.escalation_stack = []) :
    (runReturns loads.length (runEscalations loads s)).runtime = some rt ∧
    (runReturns loads.length (runEscalations loads s)).runner = s.runner ∧
    (runReturns loads.length (runEscalations loads s)).escalation_stack = [] := by
  have hc := roundtrip_core loads s rt h
  refine ⟨?_, ?_, ?_⟩
  · have := congrArg (fun t => t.1) hc
    simpa [coreOf, h] using this
  · have := congrArg (fun t => t.2.1) hc
    simpa [coreOf] using this
  · have := congrArg (fun t => t.2.2) hc
    simpa [coreOf, hstack] using this

/-- First coder load used in the nested-escalation witness. -/
def coderLoad1 : AgentRunner × RuntimeHandle :=
  ({ agent_path := "/agents/hive_coder" },
    { graph_id := "c1", active_graph_id := "c1", is_running := false })

/-- Second coder load used in the nested-escalation witness. -/
def coderLoad2 : AgentRunner × RuntimeHandle :=
  ({ agent_path := "/agents/hive_coder" },
    { graph_id := "c2", active_graph_id := "c2", is_running := false })

/-- Witness for C1: two nested escalations followed by two returns restore
the original pre-first-escalate handle and runner and leave the stack
empty. -/
theorem stack_discipline_witness :
    sampleState.runtime = some sampleHandle ∧
    sampleState.escalation_stack = [] ∧
    ((runReturns [coderLoad1, coderLoad2].length
        (runEscalations [coderLoad1, coderLoad2] sampleState)).runtime =
      some sampleHandle ∧
    (runReturns [coderLoad1, coderLoad2].length
        (runEscalations [coderLoad1, coderLoad2] sampleState)).runner =
      sampleState.runner ∧
    (runReturns [coderLoad1, coderLoad2].length
        (runEscalations [coderLoad1, coderLoad2] sampleState)).escalation_stack =
      []) :=
  ⟨rfl, rfl, stack_discipline sampleState sampleHandle [coderLoad1, coderLoad2] rfl rfl⟩

/-! ### C9: session subscription invariant -/

/-- The core session operations of the TUI controller. -/
inductive Op
  | unmountOp
  | loadSwitch (load : Option (AgentRunner × RuntimeHandle))
  | escalateOp (reason context node_id : String) (load : LoadOutcome)
  | returnOp (summary : String) (injectFails : Bool)

/-- Dispatch one core operation on the session state. -/
def step (s : TuiState) : Op → TuiState × List Effect
  | .unmountOp => unmount_agent_widgets s
  | .loadSwitch load => load_and_switch_agent load s
  | .escalateOp reason context node_id load =>
      do_escalate_to_coder reason context node_id load s
  | .returnOp summary injectFails => return_from_escalation summary injectFails s

/-- The spec's session invariant: no active handle implies no stored
subscription token. -/
def SessionInv (s : TuiState) : Prop :=
  s.runtime = none → s.subscription_id = none

/-- Subscription discipline along an effect trace: starting from `cnt` live
subscriptions (0 or 1), a subscribe is legal only when no subscription is
live, and an unsubscribe ends the live subscription. -/
def subsOk : Nat → List Effect → Bool
  | _, [] => true
  | cnt, Effect.subscribe _ :: rest => if cnt = 0 then subsOk 1 rest else false
  | _, Effect.unsubscribe _ :: rest => subsOk 0 rest
  | cnt, _ :: rest => subsOk cnt rest

/-- The number of live subscriptions recorded in the state (1 iff a
subscription token is held). -/
def initialSubCount (s : TuiState) : Nat :=
  match s.subscription_id with
  | some _ => 1
  | none => 0

/-- Claim C9: every core operation (load/switch, escalate — including its
rollback, return — including the empty-stack case, unmount) preserves the
invariant that a missing active handle implies a missing subscription
token, and its effect trace keeps at most one subscription live: every
subscribe happens with no live subscription, i.e. after an explicit
unsubscribe of any previous token. -/
theorem session_subscription_invariant (s : TuiState) (op : Op)
    (hinv : SessionInv s) :
    SessionInv (step s op).1 ∧ subsOk (initialSubCount s) (step s op).2 = true := by
  cases op with
  | unmountOp =>
    refine ⟨?_, ?_⟩ <;>
      cases hsub : s.subscription_id <;>
        simp [SessionInv, step, unmount_agent_widgets, unsubscribeStep, hsub,
          initialSubCount, subsOk]
  | loadSwitch load =>
    cases hrt : s.runtime with
    | none =>
      cases load with
      | none =>
        refine ⟨?_, ?_⟩
        · simp only [SessionInv, step, load_and_switch_agent, hrt]
          intro _
          exact hinv hrt
        · simp [step, load_and_switch_agent, hrt, subsOk]
      | some l =>
        obtain ⟨lr, lh⟩ := l
        refine ⟨?_, ?_⟩ <;>
          simp [SessionInv, step, load_and_switch_agent, hrt, mount_agent_widgets,
            init_runtime_connection, hinv hrt, initialSubCount, subsOk]
    | some rt =>
      cases load with
      | none =>
        refine ⟨?_, ?_⟩ <;>
          cases hsub : s.subscription_id <;> cases hrun : s.runner <;>
            simp [SessionInv, step, load_and_switch_agent, hrt, hsub, hrun,
              unmount_agent_widgets, unsubscribeStep, initialSubCount, subsOk]
      | some l =>
        obtain ⟨lr, lh⟩ := l
        refine ⟨?_, ?_⟩ <;>
          cases hsub : s.subscription_id <;> cases hrun : s.runner <;>
            simp [SessionInv, step, load_and_switch_agent, hrt, hsub, hrun,
              unmount_agent_widgets, unsubscribeStep, mount_agent_widgets,
              init_runtime_connection, initialSubCount, subsOk]
  | escalateOp reason context node_id load =>
    cases hrt : s.runtime with
    | none =>
      refine ⟨?_, ?_⟩
      · simp only [SessionInv, step, do_escalate_to_coder, hrt]
        intro _
        exact hinv hrt
      · simp [step, do_escalate_to_coder, hrt, subsOk]
    | some rt =>
      cases load with
      | loadFailure =>
        refine ⟨?_, ?_⟩ <;>
          cases hsub : s.subscription_id <;>
            simp [SessionInv, step, do_escalate_to_coder, hrt, hsub,
              unsubscribeStep, restore_from_escalation_stack,
              mount_agent_widgets, init_runtime_connection, initialSubCount,
              subsOk]
      | credentialError =>
        refine ⟨?_, ?_⟩ <;>
          cases hsub : s.subscription_id <;>
            simp [SessionInv, step, do_escalate_to_coder, hrt, hsub,
              unsubscribeStep, initialSubCount, subsOk]
      | ok lr lh =>
        refine ⟨?_, ?_⟩ <;>
          cases hsub : s.subscription_id <;>
            simp [SessionInv, step, do_escalate_to_coder, hrt, hsub,
              unsubscribeStep, mount_agent_widgets, init_runtime_connection,
              initialSubCount, subsOk]
  | returnOp summary injectFails =>
    cases hl : s.escalation_stack.getLast? with
    | none =>
      refine ⟨?_, ?_⟩
      · simp only [SessionInv, step, return_from_escalation, hl]
        intro h
        exact hinv h
      · simp [step, return_from_escalation, hl, subsOk]
    | some f =>
      refine ⟨?_, ?_⟩ <;>
        cases hsub : s.subscription_id <;> cases hrun : s.runner <;>
          by_cases hb : f.blocked_node_id = "" <;> cases injectFails <;>
            simp [SessionInv, step, return_from_escalation, hl, hsub, hrun, hb,
              unmount_agent_widgets, unsubscribeStep, mount_agent_widgets,
              init_runtime_connection, initialSubCount, subsOk]

/-- Witness for C9: the invariant-preservation theorem applied to the
sample state and a user-initiated escalate with a successful coder load. -/
theorem session_subscription_invariant_witness :
    SessionInv sampleState ∧
    (SessionInv (step sampleState
        (Op.escalateOp "User-initiated escalation" "" ""
          (LoadOutcome.ok coderLoad1.1 coderLoad1.2))).1 ∧
      subsOk (initialSubCount sampleState)
        (step sampleState
          (Op.escalateOp "User-initiated escalation" "" ""
          (LoadOutcome.ok coderLoad1.1 coderLoad1.2))).2 =
        true) :=
  ⟨fun h => by simp [sampleState] at h,
    session_subscription_invariant sampleState
      (Op.escalateOp "User-initiated escalation" "" ""
          (LoadOutcome.ok coderLoad1.1 coderLoad1.2))
      (fun h => by simp [sampleState] at h)⟩

end Hive
